import Mathlib

/-!
# SpendWise expense API — shallow embedding

A shallow embedding of the expense service in `backend/index.js`:
the four Express handlers (create, list, total, delete), the JavaScript
value/number semantics they rely on (`parseFloat`, `parseInt`, truthiness),
and a model of the PostgreSQL persistence engine as described by
`backend/init.sql` (table `expenses(id SERIAL, item_name, amount NUMERIC(10,2)
CHECK (amount >= 0), category DEFAULT 'Other', created_at TIMESTAMP)`).

Conventions of the embedding:
* JS numbers are modelled as `JsNum`: exact rationals plus `NaN` and the two
  infinities.  (IEEE-754 rounding is irrelevant to every claim considered:
  all concrete values are small two-decimal amounts.)
* NUMERIC(10,2) values are stored in cents (`Nat`, thanks to the CHECK
  constraint) and travel back to JavaScript as decimal text: `NumericText`
  models the decimal string (such as "30.50") the pg driver hands back for a
  NUMERIC column, tagged with the value it denotes in cents.
* A handler run yields an `Outcome` (an HTTP response, or `crash` when the
  JavaScript code throws outside any try/catch, in which case the async
  Express 4 handler produces no response at all), the new database state,
  and the list of queries issued to the persistence engine.
-/

namespace SpendWise

/-- A JavaScript number: finite (exact rational), infinities, or NaN. -/
inductive JsNum where
  | finite (q : ℚ)
  | posInf
  | negInf
  | nan
deriving DecidableEq

/-- A JSON/JavaScript value as it can appear in a request body field.
`obj s` stands for any non-string object (including arrays); `s` records the
result of its JavaScript string conversion (used by `parseFloat`), e.g.
`[5]` converts to "5" and `\x7b\x7d` to "[object Object]". -/
inductive JsValue where
  | null
  | bool (b : Bool)
  | num (n : JsNum)
  | str (s : String)
  | obj (s : String)
deriving DecidableEq

/-- JavaScript truthiness of a possibly-absent value (`none` = `undefined`). -/
def truthy : Option JsValue → Bool
  | none => false
  | some .null => false
  | some (.bool b) => b
  | some (.num (.finite q)) => q ≠ 0
  | some (.num .nan) => false
  | some (.num _) => true
  | some (.str s) => s ≠ ""
  | some (.obj _) => true

/-- Digits of a radix-`r` numeral, folded to a `Nat`. -/
def digitsToNat (r : Nat) (ds : List Nat) : Nat :=
  ds.foldl (fun n d => n * r + d) 0

/-- Decimal digit value of a character, if it is one. -/
def decDigit? (c : Char) : Option Nat :=
  if c.isDigit then some (c.toNat - '0'.toNat) else none

/-- Hexadecimal digit value of a character, if it is one. -/
def hexDigit? (c : Char) : Option Nat :=
  if c.isDigit then some (c.toNat - '0'.toNat)
  else if 'a' ≤ c ∧ c ≤ 'f' then some (c.toNat - 'a'.toNat + 10)
  else if 'A' ≤ c ∧ c ≤ 'F' then some (c.toNat - 'A'.toNat + 10)
  else none

/-- Longest prefix of digit values (w.r.t. `digit?`), with the rest. -/
def takeDigits (digit? : Char → Option Nat) : List Char → List Nat × List Char
  | [] => ([], [])
  | c :: cs =>
    match digit? c with
    | some d => let (ds, rest) := takeDigits digit? cs; (d :: ds, rest)
    | none => ([], c :: cs)

/-- Optional leading sign; returns (isNegative, rest). -/
def takeSign : List Char → Bool × List Char
  | '-' :: cs => (true, cs)
  | '+' :: cs => (false, cs)
  | cs => (false, cs)

/-- JavaScript `parseInt(s)` with the radix argument omitted: skip leading
whitespace, optional sign, then a `0x`/`0X` hexadecimal or decimal digit
prefix; `none` models a `NaN` result. -/
def jsParseInt (s : String) : Option Int :=
  let cs := s.toList.dropWhile Char.isWhitespace
  let (neg, cs) := takeSign cs
  let (radix, cs) :=
    match cs with
    | '0' :: 'x' :: rest => (16, rest)
    | '0' :: 'X' :: rest => (16, rest)
    | _ => (10, cs)
  let digit? := if radix = 16 then hexDigit? else decDigit?
  match takeDigits digit? cs with
  | ([], _) => none
  | (ds, _) =>
    let n : Int := digitsToNat radix ds
    some (if neg then -n else n)

/-- The numeric value of a parsed mantissa/exponent:
`intPart.fracPart * 10 ^ exp`. -/
def floatValue (intPart : List Nat) (fracPart : List Nat) (exp : Int) : ℚ :=
  ((digitsToNat 10 intPart : ℚ) + (digitsToNat 10 fracPart : ℚ) / (10 : ℚ) ^ fracPart.length)
    * (10 : ℚ) ^ exp

/-- Exponent suffix of a JavaScript float literal (`e`/`E`, optional sign,
digits); yields 0 when absent or malformed (the shorter valid prefix wins,
as in `parseFloat("1e")` = 1). -/
def takeExponent (cs : List Char) : Int :=
  match cs with
  | 'e' :: rest | 'E' :: rest =>
    let (neg, rest) := takeSign rest
    match takeDigits decDigit? rest with
    | ([], _) => 0
    | (ds, _) => let n : Int := digitsToNat 10 ds; if neg then -n else n
  | _ => 0

/-- JavaScript `parseFloat` applied to a string: skip leading whitespace,
optional sign, then either the literal `Infinity` or a decimal mantissa with
optional fraction and exponent; `nan` when no valid prefix exists. -/
def jsParseFloatString (s : String) : JsNum :=
  let cs := s.toList.dropWhile Char.isWhitespace
  let (neg, cs) := takeSign cs
  if "Infinity".toList.isPrefixOf cs then
    if neg then .negInf else .posInf
  else
    let (intDs, rest) := takeDigits decDigit? cs
    let (fracDs, rest2) :=
      match rest with
      | '.' :: afterDot => takeDigits decDigit? afterDot
      | _ => ([], rest)
    if intDs = [] ∧ fracDs = [] then .nan
    else
      let q := floatValue intDs fracDs (takeExponent rest2)
      .finite (if neg then -q else q)

/-- JavaScript `parseFloat(v)` for a request-body value: numbers pass
through, everything else is converted to a string first (`null` → "null",
`true`/`false` likewise — none parses; objects use their recorded string
conversion). -/
def jsParseFloat : JsValue → JsNum
  | .num n => n
  | .str s => jsParseFloatString s
  | .obj s => jsParseFloatString s
  | .null => .nan
  | .bool _ => .nan

/-- JavaScript `isNaN` on an already-numeric value. -/
def jsIsNaN : JsNum → Bool
  | .nan => true
  | _ => false

/-- JavaScript `n < 0` (false for NaN). -/
def jsLtZero : JsNum → Bool
  | .finite q => decide (q < 0)
  | .negInf => true
  | _ => false

/-- The amount validation test of the create handler:
`isNaN(numAmount) || numAmount < 0`. -/
def jsAmountInvalid (n : JsNum) : Bool :=
  jsIsNaN n || jsLtZero n

/-- JavaScript `s.trim()`: strip leading and trailing whitespace. -/
def jsTrim (s : String) : String :=
  ⟨((s.toList.dropWhile Char.isWhitespace).reverse.dropWhile Char.isWhitespace).reverse⟩

/-- Character-wise lowercasing, used to express "casing variant of". -/
def lowerStr (s : String) : String :=
  ⟨s.toList.map Char.toLower⟩

/-! ## Persistence engine (PostgreSQL, per init.sql) -/

/-- A stored row of the `expenses` table.  `amount NUMERIC(10,2)` with
`CHECK (amount >= 0)` is held in cents; `created_at` is an abstract
monotone timestamp assigned by the engine at insertion. -/
structure Expense where
  id : Nat
  item_name : String
  cents : Nat
  category : String
  created_at : Nat
deriving DecidableEq

/-- Engine state: stored rows (in insertion order), the SERIAL counter for
`id`, and the timestamp clock for `created_at`. -/
structure DB where
  rows : List Expense
  nextId : Nat
  clock : Nat
deriving DecidableEq

/-- The decimal string (e.g. "30.50") the pg driver returns for a
NUMERIC(10,2) value, tagged by the value it denotes in cents.
JavaScript sees it as a string until it is explicitly coerced. -/
structure NumericText where
  cents : Nat
deriving DecidableEq

/-- `parseFloat` applied to the decimal string of a NUMERIC(10,2) value
recovers the value exactly. -/
def jsParseFloatText (t : NumericText) : JsNum :=
  .finite ((t.cents : ℚ) / 100)

/-- A row as it crosses the wire back to JavaScript (`RETURNING *` /
`SELECT *`): column names as in the table, `amount` as decimal text. -/
structure WireRow where
  id : Nat
  item_name : String
  amount : NumericText
  category : String
  created_at : Nat
deriving DecidableEq

/-- Wire representation of a stored row. -/
def toWire (e : Expense) : WireRow :=
  ⟨e.id, e.item_name, ⟨e.cents⟩, e.category, e.created_at⟩

/-- NUMERIC(10,2) rounding of an amount to cents: ⌊100·q + 1/2⌋, i.e.
round-half-up, which is half-away-from-zero for the nonnegative amounts
that reach the engine; computed on the numerator and denominator so it
evaluates by kernel reduction. -/
def centsOfAmount (q : ℚ) : Nat :=
  ((200 * q.num + q.den).fdiv (2 * q.den)).toNat

/-- `INSERT INTO expenses (item_name, amount, category) VALUES ($1,$2,$3)
RETURNING *`.  Fails (PersistenceError) when the amount is not a finite
number NUMERIC(10,2) can hold or violates `CHECK (amount >= 0)`. -/
def engineInsert (db : DB) (item : String) (amount : JsNum) (cat : String) :
    Except String (WireRow × DB) :=
  match amount with
  | .finite q =>
    if q < 0 then .error "violates check constraint amount_check"
    else
      let e : Expense := ⟨db.nextId, item, centsOfAmount q, cat, db.clock⟩
      .ok (toWire e, ⟨db.rows ++ [e], db.nextId + 1, db.clock + 1⟩)
  | _ => .error "invalid input syntax for type numeric"

/-- Does a row satisfy the optional `WHERE category = $1` predicate? -/
def matchesFilter (filt : Option String) (e : Expense) : Bool :=
  match filt with
  | none => true
  | some c => e.category == c

/-- Insert into a list already sorted by `created_at` descending, keeping
earlier rows first on ties (stable, engine-default tie order). -/
def insertByCreatedDesc (e : Expense) : List Expense → List Expense
  | [] => [e]
  | x :: xs =>
    if e.created_at ≤ x.created_at then x :: insertByCreatedDesc e xs
    else e :: x :: xs

/-- `ORDER BY created_at DESC` (stable). -/
def sortByCreatedDesc : List Expense → List Expense
  | [] => []
  | x :: xs => insertByCreatedDesc x (sortByCreatedDesc xs)

/-- `SELECT * FROM expenses [WHERE category = $1] ORDER BY created_at DESC`. -/
def engineSelectList (db : DB) (filt : Option String) : List WireRow :=
  (sortByCreatedDesc (db.rows.filter (matchesFilter filt))).map toWire

/-- `SUM(amount)` over the filtered rows: NULL (`none`) over zero rows,
otherwise the exact numeric sum as decimal text. -/
def engineRawSum (db : DB) (filt : Option String) : Option NumericText :=
  if (db.rows.filter (matchesFilter filt)).isEmpty then none
  else some ⟨((db.rows.filter (matchesFilter filt)).map (·.cents)).sum⟩

/-- `COALESCE(SUM(amount), 0)`: the NULL of an empty sum becomes 0. -/
def engineCoalescedSum (db : DB) (filt : Option String) : NumericText :=
  (engineRawSum db filt).getD ⟨0⟩

/-- `SELECT * FROM expenses WHERE id = $1` (primary-key lookup). -/
def engineSelectById (db : DB) (n : Int) : List WireRow :=
  (db.rows.filter (fun e => (e.id : Int) == n)).map toWire

/-- `DELETE FROM expenses WHERE id = $1`. -/
def engineDeleteById (db : DB) (n : Int) : DB :=
  { db with rows := db.rows.filter (fun e => (e.id : Int) != n) }

/-! ## Request/response model -/

/-- The JSON body of a create request; `none` is an absent field.  Unknown
fields are ignored by the handler, hence not modelled. -/
structure ReqBody where
  itemName : Option JsValue
  amount : Option JsValue
  category : Option JsValue
deriving DecidableEq

/-- A query issued to the persistence engine. -/
inductive PersistOp where
  | insert (item : String) (amount : JsNum) (category : String)
  | selectList (filt : Option String)
  | selectSum (filt : Option String)
  | selectById (n : Int)
  | deleteById (n : Int)
deriving DecidableEq

/-- A JSON response body. -/
inductive RespBody where
  | error (msg : String)
  | created (message : String) (expense : WireRow)
  | expenseList (expenses : List WireRow)
  | totalBody (total : JsNum)
  | deleted (message : String) (id : Int)
deriving DecidableEq

/-- What a handler run produces towards the client: a single HTTP response,
or `crash` when the handler throws outside any try/catch — the async
Express 4 handler then sends no response at all (unhandled rejection). -/
inductive Outcome where
  | resp (status : Nat) (body : RespBody)
  | crash
deriving DecidableEq

/-- Result of running a handler: client-visible outcome, resulting engine
state, and the queries issued to the engine (in order). -/
structure HandlerResult where
  outcome : Outcome
  db : DB
  ops : List PersistOp
deriving DecidableEq

/-! ## Handlers (backend/index.js) -/

/-- The fixed category set of the create handler
(`validCategories`, index.js:129). -/
def validCategories : List String :=
  ["Food", "Transport", "Entertainment", "Shopping", "Bills", "Other"]

/-- `category && validCategories.includes(category) ? category : 'Other'`
(index.js:130).  `includes` on a list of strings can only match a string,
so any non-string (and any falsy or unrecognized) value yields "Other". -/
def expenseCategory (category : Option JsValue) : String :=
  if truthy category then
    match category with
    | some (.str s) => if validCategories.contains s then s else "Other"
    | _ => "Other"
  else "Other"

/-- POST /api/expenses (index.js:104-148).  Validation happens outside the
try/catch, so `itemName.trim()` on a truthy non-string throws a TypeError
the handler never catches: outcome `crash`, no response. -/
def createHandler (db : DB) (b : ReqBody) : HandlerResult :=
  if truthy b.itemName = false then
    ⟨.resp 400 (.error "Item name is required and cannot be empty"), db, []⟩
  else
    match b.itemName with
    | some (.str s) =>
      if jsTrim s = "" then
        ⟨.resp 400 (.error "Item name is required and cannot be empty"), db, []⟩
      else
        match b.amount with
        | none => ⟨.resp 400 (.error "Amount is required"), db, []⟩
        | some a =>
          if a = .null then ⟨.resp 400 (.error "Amount is required"), db, []⟩
          else
          let numAmount := jsParseFloat a
          if jsAmountInvalid numAmount then
            ⟨.resp 400 (.error "Amount must be a positive number"), db, []⟩
          else
            let cat := expenseCategory b.category
            match engineInsert db (jsTrim s) numAmount cat with
            | .ok (row, db2) =>
              ⟨.resp 201 (.created "Expense added successfully" row), db2,
                [.insert (jsTrim s) numAmount cat]⟩
            | .error _ =>
              ⟨.resp 500 (.error "Failed to add expense to database"), db,
                [.insert (jsTrim s) numAmount cat]⟩
    | _ => ⟨.crash, db, []⟩

/-- `if (category)` on the raw query parameter (`none` = absent):
the optional filter actually applied. -/
def queryFilter (category : Option String) : Option String :=
  match category with
  | some c => if c ≠ "" then some c else none
  | none => none

/-- The SQL text and bound parameters the list handler builds
(index.js:155-163), verbatim. -/
def expensesListQuery (category : Option String) : String × List String :=
  let query := "SELECT * FROM expenses"
  let (query, params) :=
    match queryFilter category with
    | some c => (query ++ " WHERE category = $1", [c])
    | none => (query, ([] : List String))
  (query ++ " ORDER BY created_at DESC", params)

/-- The SQL text and bound parameters the total handler builds
(index.js:183-189), verbatim. -/
def expensesTotalQuery (category : Option String) : String × List String :=
  let query := "SELECT COALESCE(SUM(amount), 0) as total FROM expenses"
  match queryFilter category with
  | some c => (query ++ " WHERE category = $1", [c])
  | none => (query, ([] : List String))

/-- GET /api/expenses (index.js:151-176): the engine rows are passed to the
response unchanged. -/
def listHandler (db : DB) (category : Option String) : HandlerResult :=
  let filt := queryFilter category
  ⟨.resp 200 (.expenseList (engineSelectList db filt)), db, [.selectList filt]⟩

/-- GET /api/expenses/total (index.js:179-204): the engine's coalesced sum
(decimal text) is coerced with `parseFloat` before responding. -/
def totalHandler (db : DB) (category : Option String) : HandlerResult :=
  let filt := queryFilter category
  ⟨.resp 200 (.totalBody (jsParseFloatText (engineCoalescedSum db filt))), db,
    [.selectSum filt]⟩

/-- DELETE /api/expenses/:id (index.js:207-247). -/
def deleteHandler (db : DB) (id : String) : HandlerResult :=
  match jsParseInt id with
  | none => ⟨.resp 400 (.error "Invalid expense ID"), db, []⟩
  | some n =>
    if n ≤ 0 then ⟨.resp 400 (.error "Invalid expense ID"), db, []⟩
    else
      if (engineSelectById db n).length = 0 then
        ⟨.resp 404 (.error "Expense not found"), db, [.selectById n]⟩
      else
        ⟨.resp 200 (.deleted "Expense deleted successfully" n),
          engineDeleteById db n, [.selectById n, .deleteById n]⟩

/-! ## Helper lemmas -/

/-- A string with a nonempty trim is nonempty. -/
theorem ne_empty_of_trim_ne_empty {s : String} (h : jsTrim s ≠ "") : s ≠ "" := by
  intro hs
  exact h (by rw [hs]; decide)

/-- The item-name check fails on any falsy `itemName`. -/
theorem createHandler_item_falsy (db : DB) (b : ReqBody)
    (h : truthy b.itemName = false) :
    createHandler db b =
      ⟨.resp 400 (.error "Item name is required and cannot be empty"), db, []⟩ := by
  unfold createHandler
  rw [h]
  rfl

/-- The item-name check fails on a whitespace-only string. -/
theorem createHandler_item_blank (db : DB) (b : ReqBody) (s : String)
    (hitem : b.itemName = some (.str s)) (hs : jsTrim s = "") :
    createHandler db b =
      ⟨.resp 400 (.error "Item name is required and cannot be empty"), db, []⟩ := by
  by_cases h0 : s = ""
  · exact createHandler_item_falsy db b (by simp [hitem, truthy, h0])
  · unfold createHandler
    rw [hitem]
    simp [truthy, h0, hs]

/-- With the item name valid, an absent or null amount fails the
amount-required check. -/
theorem createHandler_amount_missing (db : DB) (b : ReqBody) (s : String)
    (hitem : b.itemName = some (.str s)) (hs : jsTrim s ≠ "")
    (ha : b.amount = none ∨ b.amount = some .null) :
    createHandler db b = ⟨.resp 400 (.error "Amount is required"), db, []⟩ := by
  have h0 : s ≠ "" := ne_empty_of_trim_ne_empty hs
  unfold createHandler
  rw [hitem]
  rcases ha with ha | ha <;> rw [ha] <;> simp [truthy, h0, hs]

/-- With the item name valid and the amount present, a NaN or negative
parse fails the numeric amount check. -/
theorem createHandler_amount_invalid (db : DB) (b : ReqBody) (s : String) (a : JsValue)
    (hitem : b.itemName = some (.str s)) (hs : jsTrim s ≠ "")
    (ha : b.amount = some a) (hnull : a ≠ .null)
    (hbad : jsAmountInvalid (jsParseFloat a) = true) :
    createHandler db b =
      ⟨.resp 400 (.error "Amount must be a positive number"), db, []⟩ := by
  have h0 : s ≠ "" := ne_empty_of_trim_ne_empty hs
  unfold createHandler
  rw [hitem, ha]
  simp [truthy, h0, hs, hnull, hbad]

/-- With all checks passed, exactly one insert is issued, carrying the
trimmed name, the parsed amount and the normalized category. -/
theorem createHandler_valid_ops (db : DB) (b : ReqBody) (s : String) (a : JsValue)
    (hitem : b.itemName = some (.str s)) (hs : jsTrim s ≠ "")
    (ha : b.amount = some a) (hnull : a ≠ .null)
    (hok : jsAmountInvalid (jsParseFloat a) = false) :
    (createHandler db b).ops =
      [.insert (jsTrim s) (jsParseFloat a) (expenseCategory b.category)] := by
  have h0 : s ≠ "" := ne_empty_of_trim_ne_empty hs
  unfold createHandler
  rw [hitem, ha]
  simp only [truthy, h0, hs, hnull, hok]
  simp [truthy, h0, hs, hnull, hok]
  rcases hE : engineInsert db (jsTrim s) (jsParseFloat a) (expenseCategory b.category)
    with _ | ⟨row, db2⟩ <;> simp [hE]

/-- With every check passed and a finite nonnegative parsed amount, the
create handler's entire result, explicitly. -/
theorem createHandler_valid_eq (db : DB) (b : ReqBody) (s : String) (a : JsValue) (q : ℚ)
    (hitem : b.itemName = some (.str s)) (hs : jsTrim s ≠ "")
    (ha : b.amount = some a) (hnull : a ≠ .null)
    (hpa : jsParseFloat a = .finite q) (hq : ¬ q < 0) :
    createHandler db b =
      ⟨.resp 201 (.created "Expense added successfully"
          (toWire ⟨db.nextId, jsTrim s, centsOfAmount q, expenseCategory b.category, db.clock⟩)),
        ⟨db.rows ++ [⟨db.nextId, jsTrim s, centsOfAmount q, expenseCategory b.category, db.clock⟩],
          db.nextId + 1, db.clock + 1⟩,
        [.insert (jsTrim s) (.finite q) (expenseCategory b.category)]⟩ := by
  have h0 : s ≠ "" := ne_empty_of_trim_ne_empty hs
  unfold createHandler
  rw [hitem, ha]
  simp [truthy, h0, hs, hnull, hpa, jsAmountInvalid, jsIsNaN, jsLtZero, hq, engineInsert]

/-- With every check passed but an infinite parsed amount (`"Infinity"`),
the insert is still issued; NUMERIC(10,2) rejects it, so the client gets a
500, not a validation failure. -/
theorem createHandler_posInf_eq (db : DB) (b : ReqBody) (s : String) (a : JsValue)
    (hitem : b.itemName = some (.str s)) (hs : jsTrim s ≠ "")
    (ha : b.amount = some a) (hnull : a ≠ .null)
    (hpa : jsParseFloat a = .posInf) :
    createHandler db b =
      ⟨.resp 500 (.error "Failed to add expense to database"), db,
        [.insert (jsTrim s) .posInf (expenseCategory b.category)]⟩ := by
  have h0 : s ≠ "" := ne_empty_of_trim_ne_empty hs
  unfold createHandler
  rw [hitem, ha]
  simp [truthy, h0, hs, hnull, hpa, jsAmountInvalid, jsIsNaN, jsLtZero, engineInsert]

/-- A truthy non-string `itemName` makes the handler throw on `.trim()`:
no response is produced and the engine is never reached. -/
theorem createHandler_crash_eq (db : DB) (b : ReqBody) (v : JsValue)
    (hitem : b.itemName = some v) (ht : truthy b.itemName ≠ false)
    (hnstr : ∀ s, v ≠ .str s) :
    createHandler db b = ⟨.crash, db, []⟩ := by
  unfold createHandler
  rw [hitem] at ht ⊢
  rw [if_neg ht]
  cases v with
  | str s => exact absurd rfl (hnstr s)
  | null => rfl
  | bool xb => rfl
  | num xn => rfl
  | obj xo => rfl

/-- Inversion of a successful create: all checks passed, and the 201
response carries exactly the row the engine returned from
`INSERT ... RETURNING *`, which is now stored at the tail of the table. -/
theorem createHandler_success_inv (db : DB) (b : ReqBody) (m : String) (row : WireRow)
    (h : (createHandler db b).outcome = .resp 201 (.created m row)) :
    ∃ s a q, b.itemName = some (.str s) ∧ jsTrim s ≠ "" ∧
      b.amount = some a ∧ a ≠ .null ∧
      jsParseFloat a = .finite q ∧ ¬ q < 0 ∧
      m = "Expense added successfully" ∧
      row = toWire ⟨db.nextId, jsTrim s, centsOfAmount q, expenseCategory b.category, db.clock⟩ ∧
      createHandler db b =
        ⟨.resp 201 (.created m row),
          ⟨db.rows ++ [⟨db.nextId, jsTrim s, centsOfAmount q, expenseCategory b.category, db.clock⟩],
            db.nextId + 1, db.clock + 1⟩,
          [.insert (jsTrim s) (.finite q) (expenseCategory b.category)]⟩ := by
  by_cases ht : truthy b.itemName = false
  · rw [createHandler_item_falsy db b ht] at h
    simp at h
  · rcases hbi : b.itemName with _ | v
    · rw [hbi] at ht
      exact absurd rfl ht
    · cases v with
      | str s =>
        by_cases htr : jsTrim s = ""
        · rw [createHandler_item_blank db b s hbi htr] at h
          simp at h
        · rcases hba : b.amount with _ | a
          · rw [createHandler_amount_missing db b s hbi htr (Or.inl hba)] at h
            simp at h
          · by_cases hnull : a = JsValue.null
            · rw [createHandler_amount_missing db b s hbi htr (Or.inr (hnull ▸ hba))] at h
              simp at h
            · by_cases hbad : jsAmountInvalid (jsParseFloat a) = true
              · rw [createHandler_amount_invalid db b s a hbi htr hba hnull hbad] at h
                simp at h
              · rcases hpa : jsParseFloat a with q | _ | _ | _
                · by_cases hq : q < 0
                  · refine absurd ?_ hbad
                    rw [hpa]
                    simp [jsAmountInvalid, jsLtZero, hq]
                  · have key := createHandler_valid_eq db b s a q hbi htr hba hnull hpa hq
                    rw [key] at h
                    have h2 : (Outcome.resp 201 (.created "Expense added successfully"
                        (toWire ⟨db.nextId, jsTrim s, centsOfAmount q,
                          expenseCategory b.category, db.clock⟩))) =
                        .resp 201 (.created m row) := h
                    injection h2 with hst hbd
                    injection hbd with hm hrow
                    exact ⟨s, a, q, rfl, htr, rfl, hnull, hpa, hq, hm.symm, hrow.symm,
                      by rw [key, ← hm, ← hrow]⟩
                · have key := createHandler_posInf_eq db b s a hbi htr hba hnull hpa
                  rw [key] at h
                  simp at h
                · refine absurd ?_ hbad
                  rw [hpa]
                  rfl
                · refine absurd ?_ hbad
                  rw [hpa]
                  rfl
      | null =>
        rw [hbi] at ht
        exact absurd rfl ht
      | bool xb =>
        rw [createHandler_crash_eq db b _ hbi ht (by intro s hv; cases hv)] at h
        simp at h
      | num xn =>
        rw [createHandler_crash_eq db b _ hbi ht (by intro s hv; cases hv)] at h
        simp at h
      | obj xo =>
        rw [createHandler_crash_eq db b _ hbi ht (by intro s hv; cases hv)] at h
        simp at h

/-- Sorted insertion preserves membership. -/
theorem mem_insertByCreatedDesc (e x : Expense) (l : List Expense) :
    x ∈ insertByCreatedDesc e l ↔ x = e ∨ x ∈ l := by
  induction l with
  | nil => simp [insertByCreatedDesc]
  | cons y ys ih =>
    unfold insertByCreatedDesc
    split
    · simp only [List.mem_cons, ih]
      tauto
    · simp only [List.mem_cons]

/-- `ORDER BY created_at DESC` permutes rows without adding or dropping. -/
theorem mem_sortByCreatedDesc (x : Expense) (l : List Expense) :
    x ∈ sortByCreatedDesc l ↔ x ∈ l := by
  induction l with
  | nil => simp [sortByCreatedDesc]
  | cons y ys ih => simp [sortByCreatedDesc, mem_insertByCreatedDesc, ih]

/-- A category value that is a member of the fixed set is kept unchanged. -/
theorem expenseCategory_of_mem (s : String) (hs : s ∈ validCategories) :
    expenseCategory (some (.str s)) = s := by
  have hne : s ≠ "" := by
    fin_cases hs <;> decide
  simp [expenseCategory, truthy, hne, hs]

/-- A category value that is not a member of the fixed set (whatever its
shape) is normalized to "Other". -/
theorem expenseCategory_of_not_mem (c : Option JsValue)
    (h : ∀ s, c = some (.str s) → s ∉ validCategories) :
    expenseCategory c = "Other" := by
  rcases c with _ | v
  · rfl
  · cases v with
    | str s =>
      by_cases h0 : s = ""
      · subst h0; rfl
      · have hns : s ∉ validCategories := h s rfl
        simp [expenseCategory, truthy, h0, hns]
    | null => rfl
    | bool xb => cases xb <;> rfl
    | num xn =>
      unfold expenseCategory
      split <;> rfl
    | obj o =>
      unfold expenseCategory
      split <;> rfl

/-- Category normalization always lands in the fixed set. -/
theorem expenseCategory_mem (c : Option JsValue) :
    expenseCategory c ∈ validCategories := by
  by_cases h : ∀ s, c = some (.str s) → s ∉ validCategories
  · rw [expenseCategory_of_not_mem c h]
    decide
  · push_neg at h
    obtain ⟨s, hcs, hmem⟩ := h
    rw [hcs, expenseCategory_of_mem s hmem]
    exact hmem

/-- Dividing a sum of cents by 100 sums the individual amounts. -/
theorem sum_cents_div (l : List Nat) :
    ((l.sum : ℚ)) / 100 = (l.map (fun c : Nat => (c : ℚ) / 100)).sum := by
  induction l with
  | nil => simp
  | cons x xs ih =>
    rw [List.map_cons, List.sum_cons, List.sum_cons, Nat.cast_add, add_div, ih]

/-! ## Claims -/

/-- C2: for the delete operation, every raw path identifier that does not
parse (`parseInt`) to an integer strictly greater than 0 is rejected with
status 400 ("Invalid expense ID") and no persistence call is made; in
particular "0" parses to 0, "-17" to -17 and "abc" to NaN, so all three are
rejected. -/
theorem delete_invalid_id_rejected :
    (∀ (db : DB) (s : String), (∀ n, jsParseInt s = some n → n ≤ 0) →
      deleteHandler db s = ⟨.resp 400 (.error "Invalid expense ID"), db, []⟩) ∧
    jsParseInt "0" = some 0 ∧ jsParseInt "-17" = some (-17) ∧ jsParseInt "abc" = none := by
  refine ⟨?_, by decide, by decide, by decide⟩
  intro db s h
  unfold deleteHandler
  rcases hp : jsParseInt s with _ | n
  · rfl
  · simp [h n hp]

/-- C2 witness: id "0" is rejected with 400 and no persistence call. -/
theorem delete_invalid_id_rejected_witness :
    deleteHandler ⟨[], 1, 0⟩ "0" = ⟨.resp 400 (.error "Invalid expense ID"), ⟨[], 1, 0⟩, []⟩ :=
  delete_invalid_id_rejected.1 ⟨[], 1, 0⟩ "0" (fun n hn => by
    rw [show jsParseInt "0" = some 0 by decide] at hn
    injection hn with h2
    omega)

/-- C3: an absent or empty category parameter leaves the list and total
queries unfiltered (the list ordered by `created_at` descending); a present
category — any string, without re-validation against the enumerated set and
without normalization to Other — appends `WHERE category = $1` and passes
the value through unchanged as the single bound parameter; the executed
engine query carries the same optional filter. -/
theorem list_total_query_construction :
    expensesListQuery none = ("SELECT * FROM expenses ORDER BY created_at DESC", []) ∧
    expensesListQuery (some "") = ("SELECT * FROM expenses ORDER BY created_at DESC", []) ∧
    expensesTotalQuery none = ("SELECT COALESCE(SUM(amount), 0) as total FROM expenses", []) ∧
    expensesTotalQuery (some "") =
      ("SELECT COALESCE(SUM(amount), 0) as total FROM expenses", []) ∧
    (∀ c : String, c ≠ "" →
      expensesListQuery (some c) =
        ("SELECT * FROM expenses WHERE category = $1 ORDER BY created_at DESC", [c]) ∧
      expensesTotalQuery (some c) =
        ("SELECT COALESCE(SUM(amount), 0) as total FROM expenses WHERE category = $1", [c])) ∧
    (∀ db : DB, (listHandler db none).ops = [.selectList none] ∧
      (listHandler db (some "")).ops = [.selectList none] ∧
      (totalHandler db none).ops = [.selectSum none] ∧
      (totalHandler db (some "")).ops = [.selectSum none]) ∧
    (∀ (db : DB) (c : String), c ≠ "" →
      (listHandler db (some c)).ops = [.selectList (some c)] ∧
      (totalHandler db (some c)).ops = [.selectSum (some c)]) := by
  refine ⟨rfl, rfl, rfl, rfl, ?_, fun db => ⟨rfl, rfl, rfl, rfl⟩, ?_⟩
  · intro c hc
    constructor <;> simp [expensesListQuery, expensesTotalQuery, queryFilter, hc]
  · intro db c hc
    constructor <;> simp [listHandler, totalHandler, queryFilter, hc]

/-- C3 witness: the out-of-enum filter value "Gadgets" is passed through
unchanged as a bound parameter. -/
theorem list_total_query_construction_witness :
    expensesListQuery (some "Gadgets") =
      ("SELECT * FROM expenses WHERE category = $1 ORDER BY created_at DESC", ["Gadgets"]) ∧
    expensesTotalQuery (some "Gadgets") =
      ("SELECT COALESCE(SUM(amount), 0) as total FROM expenses WHERE category = $1",
        ["Gadgets"]) :=
  list_total_query_construction.2.2.2.2.1 "Gadgets" (by decide)

/-- C4 (claim is the intent; the code slips): a create request whose
itemName is a truthy non-string — here the JSON number 5 — reaches
`itemName.trim()` outside the try/catch; the handler throws a TypeError,
so no response at all is produced (outcome `crash`) and no persistence call
is made, contradicting "every failure path produces exactly one
response". -/
theorem create_nonstring_item_no_response :
    createHandler ⟨[], 1, 0⟩ ⟨some (.num (.finite 5)), some (.num (.finite 1)), none⟩ =
      ⟨.crash, ⟨[], 1, 0⟩, []⟩ := by
  decide

/-- C9: category membership on the create path is exact, case-sensitive
string comparison: the exact label "Food" is kept, while any other casing
variant of a valid label (lowercasing to the same string but differing from
it) is not recognized and is stored as "Other". -/
theorem category_membership_case_sensitive :
    expenseCategory (some (.str "food")) = "Other" ∧
    expenseCategory (some (.str "FOOD")) = "Other" ∧
    expenseCategory (some (.str "Food")) = "Food" ∧
    ∀ v ∈ validCategories, ∀ c : String, lowerStr c = lowerStr v → c ≠ v →
      expenseCategory (some (.str c)) = "Other" := by
  refine ⟨by decide, by decide, by decide, ?_⟩
  intro v hv c hlow hne
  refine expenseCategory_of_not_mem _ (fun t ht => ?_)
  have htc : t = c := by
    injection ht with h1
    injection h1 with h2
    exact h2.symm
  subst htc
  intro hmem
  fin_cases hv <;> fin_cases hmem <;>
    first
      | exact hne rfl
      | exact absurd hlow (by decide)

/-- C9 witness: the casing variant "foOd" of "Food" is stored as "Other". -/
theorem category_membership_case_sensitive_witness :
    expenseCategory (some (.str "foOd")) = "Other" :=
  category_membership_case_sensitive.2.2.2 "Food" (by decide) "foOd" (by decide) (by decide)

/-- C1 counterexample: amount "Infinity" parses to a non-finite value, yet
the request is not rejected with 400 and a persistence call is made —
validation passes and the insert is issued (NUMERIC(10,2) then rejects it,
so the client sees 500, not the claimed 400 validation failure). -/
theorem create_amount_infinity_counterexample :
    jsParseFloat (.str "Infinity") = .posInf ∧
    (createHandler ⟨[], 1, 0⟩ ⟨some (.str "Tea"), some (.str "Infinity"), none⟩).ops =
      [.insert "Tea" .posInf "Other"] ∧
    (createHandler ⟨[], 1, 0⟩ ⟨some (.str "Tea"), some (.str "Infinity"), none⟩).outcome =
      .resp 500 (.error "Failed to add expense to database") := by
  refine ⟨by decide, by decide, by decide⟩

/-- C1 (amended): for create requests that pass the item-name check, with
amount present and non-null: the request is rejected — status 400, the
amount validation error, no persistence call — exactly when
`parseFloat(amount)` is NaN or negative; otherwise validation accepts it
(zero included as a free item; +Infinity also passes, reaching the engine)
and the single insert is issued with the parsed amount. -/
theorem create_amount_validation (db : DB) (b : ReqBody) (s : String) (a : JsValue)
    (hitem : b.itemName = some (.str s)) (hs : jsTrim s ≠ "")
    (ha : b.amount = some a) (hnull : a ≠ .null) :
    (jsAmountInvalid (jsParseFloat a) = true →
      createHandler db b =
        ⟨.resp 400 (.error "Amount must be a positive number"), db, []⟩) ∧
    (jsAmountInvalid (jsParseFloat a) = false →
      (createHandler db b).ops =
        [.insert (jsTrim s) (jsParseFloat a) (expenseCategory b.category)]) ∧
    jsAmountInvalid (.finite 0) = false :=
  ⟨createHandler_amount_invalid db b s a hitem hs ha hnull,
    createHandler_valid_ops db b s a hitem hs ha hnull, by decide⟩

/-- C1 witness: amount 0 (a free item) is accepted and inserted. -/
theorem create_amount_validation_witness :
    (createHandler ⟨[], 1, 0⟩
        ⟨some (.str "Free sample"), some (.num (.finite 0)), none⟩).ops =
      [.insert "Free sample" (.finite 0) "Other"] :=
  (create_amount_validation ⟨[], 1, 0⟩
      ⟨some (.str "Free sample"), some (.num (.finite 0)), none⟩
      "Free sample" (.num (.finite 0)) rfl (by decide) rfl (by decide)).2.1 (by decide)

/-- C5: the four create checks run in this fixed order — item name, amount
presence, amount numeric, category normalization — and the first failing
check alone determines the error response, short-circuiting the rest: a
falsy or blank itemName wins over everything (so a request missing both
itemName and amount gets the item-name error), a missing amount wins over a
bad amount value, and only a fully valid request reaches the category
step and the insert. -/
theorem create_validation_order (db : DB) (b : ReqBody) :
    (truthy b.itemName = false →
      createHandler db b =
        ⟨.resp 400 (.error "Item name is required and cannot be empty"), db, []⟩) ∧
    (∀ s, b.itemName = some (.str s) → jsTrim s = "" →
      createHandler db b =
        ⟨.resp 400 (.error "Item name is required and cannot be empty"), db, []⟩) ∧
    (∀ s, b.itemName = some (.str s) → jsTrim s ≠ "" →
      (b.amount = none ∨ b.amount = some .null) →
      createHandler db b = ⟨.resp 400 (.error "Amount is required"), db, []⟩) ∧
    (∀ s a, b.itemName = some (.str s) → jsTrim s ≠ "" → b.amount = some a → a ≠ .null →
      jsAmountInvalid (jsParseFloat a) = true →
      createHandler db b =
        ⟨.resp 400 (.error "Amount must be a positive number"), db, []⟩) ∧
    (∀ s a, b.itemName = some (.str s) → jsTrim s ≠ "" → b.amount = some a → a ≠ .null →
      jsAmountInvalid (jsParseFloat a) = false →
      (createHandler db b).ops =
        [.insert (jsTrim s) (jsParseFloat a) (expenseCategory b.category)]) :=
  ⟨createHandler_item_falsy db b,
    fun s hi ht => createHandler_item_blank db b s hi ht,
    fun s hi ht ha => createHandler_amount_missing db b s hi ht ha,
    fun s a hi ht ha hn hb => createHandler_amount_invalid db b s a hi ht ha hn hb,
    fun s a hi ht ha hn hb => createHandler_valid_ops db b s a hi ht ha hn hb⟩

/-- C5 witness: a request missing both itemName and amount fails with the
item-name error. -/
theorem create_validation_order_witness :
    createHandler ⟨[], 1, 0⟩ ⟨none, none, none⟩ =
      ⟨.resp 400 (.error "Item name is required and cannot be empty"), ⟨[], 1, 0⟩, []⟩ :=
  (create_validation_order ⟨[], 1, 0⟩ ⟨none, none, none⟩).1 rfl

/-- C6: every successful create stores and returns a category drawn from
the fixed set (a string, never null): a supplied member of the set is kept
unchanged, and an absent, non-string or unrecognized category becomes
exactly "Other" — a normalization, not a rejection. -/
theorem create_category_normalized (db : DB) (b : ReqBody) (m : String) (row : WireRow)
    (h : (createHandler db b).outcome = .resp 201 (.created m row)) :
    row.category = expenseCategory b.category ∧
    row.category ∈ validCategories ∧
    (∀ t, b.category = some (.str t) → t ∈ validCategories → row.category = t) ∧
    ((∀ t, b.category = some (.str t) → t ∉ validCategories) → row.category = "Other") ∧
    (∃ e ∈ (createHandler db b).db.rows, e.category = row.category) := by
  obtain ⟨s, a, q, hbi, htr, hba, hnull, hpa, hq, hm, hrow, key⟩ :=
    createHandler_success_inv db b m row h
  have hcat : row.category = expenseCategory b.category := by rw [hrow]; rfl
  refine ⟨hcat, hcat ▸ expenseCategory_mem b.category, ?_, ?_, ?_⟩
  · intro t hct hmem
    rw [hcat, hct, expenseCategory_of_mem t hmem]
  · intro hno
    rw [hcat, expenseCategory_of_not_mem b.category hno]
  · refine ⟨⟨db.nextId, jsTrim s, centsOfAmount q, expenseCategory b.category, db.clock⟩,
      ?_, hcat.symm⟩
    rw [key]
    simp

/-- C6 witness: the unrecognized category "Gadgets" is stored as "Other". -/
theorem create_category_normalized_witness :
    (createHandler ⟨[], 1, 0⟩
        ⟨some (.str "Tea"), some (.num (.finite 1)),
          some (.str "Gadgets")⟩).outcome =
      .resp 201 (.created "Expense added successfully" ⟨1, "Tea", ⟨100⟩, "Other", 0⟩) ∧
    (⟨1, "Tea", ⟨100⟩, "Other", 0⟩ : WireRow).category = "Other" :=
  ⟨by decide,
    (create_category_normalized ⟨[], 1, 0⟩
        ⟨some (.str "Tea"), some (.num (.finite 1)), some (.str "Gadgets")⟩
        "Expense added successfully" ⟨1, "Tea", ⟨100⟩, "Other", 0⟩ (by decide)).2.2.2.1
      (fun t ht => by
        have htg : t = "Gadgets" := by
          injection ht with h1
          injection h1 with h2
          exact h2.symm
        subst htg
        decide)⟩

/-- C7: the total response is always a single number (never null, never a
string, never an error for an empty set): over zero matching rows the raw
SUM is NULL, coalesced to exactly 0, and otherwise the total is the exact
sum of the matching amounts; e.g. amounts 25.50 and 5.00 with no filter
total 30.50. -/
theorem total_sum_semantics (db : DB) (category : Option String) :
    (totalHandler db category).outcome =
      .resp 200 (.totalBody (.finite
        (((db.rows.filter (matchesFilter (queryFilter category))).map
          (fun e : Expense => (e.cents : ℚ) / 100)).sum))) ∧
    (db.rows.filter (matchesFilter (queryFilter category)) = [] →
      engineRawSum db (queryFilter category) = none ∧
      (totalHandler db category).outcome = .resp 200 (.totalBody (.finite 0))) ∧
    (totalHandler
        ⟨[⟨1, "Lunch", 2550, "Food", 0⟩, ⟨2, "Bus fare", 500, "Transport", 1⟩], 3, 2⟩
        none).outcome = .resp 200 (.totalBody (.finite (30.50 : ℚ))) := by
  refine ⟨?_, ?_, ?_⟩
  · show Outcome.resp 200
        (.totalBody (jsParseFloatText (engineCoalescedSum db (queryFilter category)))) = _
    unfold engineCoalescedSum engineRawSum
    by_cases hempty : db.rows.filter (matchesFilter (queryFilter category)) = []
    · simp [hempty, jsParseFloatText]
    · rw [if_neg (by simpa [List.isEmpty_iff] using hempty), Option.getD_some]
      simp only [jsParseFloatText]
      congr 3
      rw [sum_cents_div, List.map_map]
      rfl
  · intro hnil
    constructor
    · simp [engineRawSum, hnil]
    · show Outcome.resp 200
          (.totalBody (jsParseFloatText (engineCoalescedSum db (queryFilter category)))) = _
      simp [engineCoalescedSum, engineRawSum, hnil, jsParseFloatText]
  · show Outcome.resp 200 (.totalBody (jsParseFloatText (engineCoalescedSum
        ⟨[⟨1, "Lunch", 2550, "Food", 0⟩, ⟨2, "Bus fare", 500, "Transport", 1⟩], 3, 2⟩
        (queryFilter none)))) = _
    have h1 : engineCoalescedSum
        ⟨[⟨1, "Lunch", 2550, "Food", 0⟩, ⟨2, "Bus fare", 500, "Transport", 1⟩], 3, 2⟩
        (queryFilter none) = ⟨3050⟩ := by decide
    rw [h1]
    simp only [jsParseFloatText]
    norm_num

/-- C7 witness: over an empty table the raw SUM is NULL and the response
total is the number 0. -/
theorem total_sum_semantics_witness :
    engineRawSum ⟨[], 1, 0⟩ (queryFilter none) = none ∧
    (totalHandler ⟨[], 1, 0⟩ none).outcome = .resp 200 (.totalBody (.finite 0)) :=
  (total_sum_semantics ⟨[], 1, 0⟩ none).2.1 rfl

/-- C8: for a delete with a valid id, a miss on the primary-key existence
check yields 404 with no delete statement issued and the table unchanged; a
hit issues the delete after the check, answers 200 with the deleted id, and
a subsequent unfiltered list no longer contains a row with that id. -/
theorem delete_existence_semantics (db : DB) (s : String) (n : Int)
    (hp : jsParseInt s = some n) (hpos : 0 < n) :
    ((∀ e ∈ db.rows, (e.id : Int) ≠ n) →
      deleteHandler db s = ⟨.resp 404 (.error "Expense not found"), db, [.selectById n]⟩) ∧
    ((∃ e ∈ db.rows, (e.id : Int) = n) →
      (deleteHandler db s).outcome = .resp 200 (.deleted "Expense deleted successfully" n) ∧
      (deleteHandler db s).ops = [.selectById n, .deleteById n] ∧
      ∀ r ∈ engineSelectList (deleteHandler db s).db none, (r.id : Int) ≠ n) := by
  have hnle : ¬ n ≤ 0 := by omega
  have hdel : deleteHandler db s =
      (if (engineSelectById db n).length = 0 then
        ⟨.resp 404 (.error "Expense not found"), db, [.selectById n]⟩
      else
        ⟨.resp 200 (.deleted "Expense deleted successfully" n),
          engineDeleteById db n, [.selectById n, .deleteById n]⟩ : HandlerResult) := by
    unfold deleteHandler
    rw [hp]
    simp [hnle]
  constructor
  · intro hno
    have hfil : db.rows.filter (fun e => (e.id : Int) == n) = [] :=
      List.filter_eq_nil_iff.mpr (fun e he => by simpa using hno e he)
    rw [hdel, if_pos (by simp [engineSelectById, hfil])]
  · rintro ⟨e, he, hid⟩
    have hmem : e ∈ db.rows.filter (fun e => (e.id : Int) == n) :=
      List.mem_filter.mpr ⟨he, by simp [hid]⟩
    have hne : ¬ (engineSelectById db n).length = 0 := by
      unfold engineSelectById
      rw [List.length_map]
      intro h0
      rw [List.length_eq_zero] at h0
      rw [h0] at hmem
      exact absurd hmem (List.not_mem_nil e)
    rw [hdel, if_neg hne]
    refine ⟨rfl, rfl, ?_⟩
    intro r hr
    unfold engineSelectList at hr
    obtain ⟨e2, he2, hw⟩ := List.mem_map.mp hr
    rw [mem_sortByCreatedDesc] at he2
    have he3 := (List.mem_filter.mp he2).1
    unfold engineDeleteById at he3
    have hpred := (List.mem_filter.mp he3).2
    rw [← hw]
    simpa [toWire] using hpred

/-- C8 witness: deleting the sole stored record with its own id answers 200
with that id after the existence check and the delete. -/
theorem delete_existence_semantics_witness :
    (deleteHandler ⟨[⟨3, "Coffee", 875, "Other", 0⟩], 4, 1⟩ "3").outcome =
      .resp 200 (.deleted "Expense deleted successfully" 3) ∧
    (deleteHandler ⟨[⟨3, "Coffee", 875, "Other", 0⟩], 4, 1⟩ "3").ops =
      [.selectById 3, .deleteById 3] :=
  let r := (delete_existence_semantics ⟨[⟨3, "Coffee", 875, "Other", 0⟩], 4, 1⟩ "3" 3
    (by decide) (by decide)).2 ⟨⟨3, "Coffee", 875, "Other", 0⟩, by simp, by decide⟩
  ⟨r.1, r.2.1⟩

/-- C10: create and list responses pass the engine's wire rows through
unchanged — the `expense`/`expenses` payloads are rows exactly in the
engine's own shape (snake_case column names, `amount` still the NUMERIC
decimal text, not a number) — while the total endpoint alone coerces the
engine's decimal text to a number with `parseFloat` before responding. -/
theorem response_passthrough (db : DB) (category : Option String) :
    (listHandler db category).outcome =
      .resp 200 (.expenseList (engineSelectList db (queryFilter category))) ∧
    (∀ (b : ReqBody) (m : String) (row : WireRow),
      (createHandler db b).outcome = .resp 201 (.created m row) →
      row ∈ (createHandler db b).db.rows.map toWire) ∧
    (totalHandler db category).outcome =
      .resp 200 (.totalBody (jsParseFloatText (engineCoalescedSum db (queryFilter category)))) ∧
    (∀ t : NumericText, jsParseFloatText t = .finite ((t.cents : ℚ) / 100)) := by
  refine ⟨rfl, ?_, rfl, fun t => rfl⟩
  intro b m row h
  obtain ⟨s, a, q, hbi, htr, hba, hnull, hpa, hq, hm, hrow, key⟩ :=
    createHandler_success_inv db b m row h
  rw [key, hrow]
  exact List.mem_map_of_mem toWire (by simp)

/-- C10 witness: a concrete create's 201 payload is the stored wire row,
with `amount` as the NUMERIC decimal text for 100 cents. -/
theorem response_passthrough_witness :
    (⟨1, "Tea", ⟨100⟩, "Other", 0⟩ : WireRow) ∈
      (createHandler ⟨[], 1, 0⟩
        ⟨some (.str "Tea"), some (.num (.finite 1)), none⟩).db.rows.map toWire :=
  (response_passthrough ⟨[], 1, 0⟩ none).2.1
    ⟨some (.str "Tea"), some (.num (.finite 1)), none⟩ "Expense added successfully"
    ⟨1, "Tea", ⟨100⟩, "Other", 0⟩ (by decide)

end SpendWise
